import Mathlib

/-!
Shallow embedding of the PANTHPARTY room-coordination server (src/server.js).

Timestamps are modelled as natural numbers of milliseconds (`Date.now()`).
Playback positions are rationals (JS numbers used as seconds).
JS `Set` objects are modelled as insertion-ordered duplicate-free lists of
socket ids (`Nat`); the global `rooms` `Map` is an insertion-ordered
association list from room id to `Room`.
Node timers are modelled by their scheduled fire instant (`Option Nat`);
`none` means no pending timer.  Every socket.io emission performed by a
handler is recorded in an explicit `Message` list instead of being sent.
-/

namespace Panthparty

/-- Destination of a socket.io emission: `requester` is `socket.emit`,
`othersInRoom` is `socket.to(roomId).emit`, `allInRoom` is
`io.to(roomId).emit`, and `direct sid` is `io.to(socketId).emit`. -/
inductive Target where
  | requester : Target
  | othersInRoom : Target
  | allInRoom : Target
  | direct : Nat → Target
deriving DecidableEq

/-- One recorded emission: the destination, the event name, and (when the
claims inspect them) the string payload fields `reason`, `message`, `role`. -/
structure Message where
  target : Target
  event : String
  reason : Option String := none
  message : Option String := none
  role : Option String := none
deriving DecidableEq

/-- JS `Set.add`: appends if absent (JS sets are insertion ordered). -/
def setAdd (s : List Nat) (x : Nat) : List Nat :=
  if x ∈ s then s else s ++ [x]

/-- JS `Set.delete`. -/
def setDelete (s : List Nat) (x : Nat) : List Nat :=
  s.filter (fun y => y ≠ x)

/-- The `Room` class (src/server.js lines 22-167).  `duration` is in
minutes as in the constructor.  `autoDestroyTimer` / `roomDestructionTimer`
hold the scheduled fire instant of the corresponding Node timer. -/
structure Room where
  roomId : String
  roomName : String
  adminPassword : String
  joiningId : String
  admins : List Nat
  normalUsers : List Nat
  currentVideo : String
  isPlaying : Bool
  currentTime : ℚ
  lastUpdate : Nat
  createdAt : Nat
  duration : Nat
  expiresAt : Nat
  apiKey : String
  autoDestroyTimer : Option Nat
  roomDestructionTimer : Option Nat
deriving DecidableEq

/-- The `Room` constructor: `new Room(roomId, roomName, adminPassword,
joiningId, duration, apiKey)` evaluated at time `now`.  It schedules the
one-shot destruction timer only when `duration > 0`. -/
def mkRoom (roomId roomName adminPassword joiningId : String) (duration : Nat)
    (apiKey : String) (now : Nat) : Room :=
  { roomId := roomId
    roomName := roomName
    adminPassword := adminPassword
    joiningId := joiningId
    admins := []
    normalUsers := []
    currentVideo := "uzwgt8uGt90"
    isPlaying := false
    currentTime := 0
    lastUpdate := now
    createdAt := now
    duration := duration
    expiresAt := now + duration * 60 * 1000
    apiKey := apiKey
    autoDestroyTimer := none
    roomDestructionTimer := if duration > 0 then some (now + duration * 60 * 1000) else none }

namespace Room

/-- `isAdmin(socketId)`. -/
def isAdmin (r : Room) (sid : Nat) : Bool :=
  sid ∈ r.admins

/-- `hasExpired()` at clock reading `now`. -/
def hasExpired (r : Room) (now : Nat) : Bool :=
  now > r.expiresAt

/-- `getRemainingTime()` at clock reading `now`: `max(0, floor((expiresAt -
now)/1000))` in seconds.  Natural subtraction and division already truncate
to `0` and floor exactly as the JS `Math.max(0, Math.floor(...))` does. -/
def getRemainingTime (r : Room) (now : Nat) : Nat :=
  (r.expiresAt - now) / 1000

/-- `updateState(isPlaying, currentTime)` at clock reading `now`. -/
def updateState (r : Room) (isPlaying : Bool) (currentTime : ℚ) (now : Nat) : Room :=
  { r with isPlaying := isPlaying, currentTime := currentTime, lastUpdate := now }

/-- The snapshot object returned by `getState()`. -/
structure StateSnapshot where
  videoId : String
  isPlaying : Bool
  currentTime : ℚ
  adminCount : Nat
  userCount : Nat
  totalUsers : Nat
  remainingTime : Nat
  hasProMode : Bool
  roomName : String
deriving DecidableEq

/-- `getState()` at clock reading `now`: when playing, the stored position
is projected forward by `(now - lastUpdate) / 1000` seconds. -/
def getState (r : Room) (now : Nat) : StateSnapshot :=
  { videoId := r.currentVideo
    isPlaying := r.isPlaying
    currentTime :=
      if r.isPlaying then r.currentTime + ((now : ℚ) - (r.lastUpdate : ℚ)) / 1000
      else r.currentTime
    adminCount := r.admins.length
    userCount := r.normalUsers.length
    totalUsers := r.admins.length + r.normalUsers.length
    remainingTime := r.getRemainingTime now
    hasProMode := r.apiKey ≠ ""
    roomName := r.roomName }

/-- `cancelAutoDestroy()`. -/
def cancelAutoDestroy (r : Room) : Room :=
  { r with autoDestroyTimer := none }

/-- `addAdmin(socketId, username)`: inserts into the admin set and cancels
any pending auto-destroy timer. -/
def addAdmin (r : Room) (sid : Nat) : Room :=
  cancelAutoDestroy { r with admins := setAdd r.admins sid }

/-- `addNormalUser(socketId, username)`. -/
def addNormalUser (r : Room) (sid : Nat) : Room :=
  { r with normalUsers := setAdd r.normalUsers sid }

/-- `startAutoDestroy()` at clock reading `now`: (re)schedules destruction
2 minutes from now. -/
def startAutoDestroy (r : Room) (now : Nat) : Room :=
  { r with autoDestroyTimer := some (now + 2 * 60 * 1000) }

/-- The record returned by `removeUser`. -/
structure RemoveResult where
  totalUsers : Nat
  wasAdmin : Bool
  remainingAdmins : Nat
deriving DecidableEq

/-- `removeUser(socketId)` at clock reading `now`: deletes the socket from
both role sets, and starts the auto-destroy timer when the departing socket
was an admin and no admins remain. -/
def removeUser (r : Room) (sid : Nat) (now : Nat) : Room × RemoveResult :=
  let wasAdmin := sid ∈ r.admins
  let r1 := { r with admins := setDelete r.admins sid
                     normalUsers := setDelete r.normalUsers sid }
  let r2 := if wasAdmin ∧ r1.admins.length = 0 then r1.startAutoDestroy now else r1
  (r2, { totalUsers := r2.admins.length + r2.normalUsers.length
         wasAdmin := wasAdmin
         remainingAdmins := r2.admins.length })

end Room

/-- The global `rooms` map: insertion-ordered association list. -/
abbrev Registry := List (String × Room)

/-- `rooms.get(k)`. -/
def mapGet : Registry → String → Option Room
  | [], _ => none
  | (k1, v1) :: t, k => if k1 = k then some v1 else mapGet t k

/-- `rooms.set(k, v)`: replaces in place when the key exists (JS `Map`
keeps the original insertion position), otherwise appends. -/
def mapSet : Registry → String → Room → Registry
  | [], k, v => [(k, v)]
  | (k1, v1) :: t, k, v => if k1 = k then (k, v) :: t else (k1, v1) :: mapSet t k v

/-- `rooms.delete(k)`. -/
def mapDelete : Registry → String → Registry
  | [], _ => []
  | (k1, v1) :: t, k => if k1 = k then mapDelete t k else (k1, v1) :: mapDelete t k

namespace Room

/-- `destroyRoom(reason)`: first calls `clearTimeout` on the auto-destroy
and duration timers (lines 107-113) — modelled by clearing both pending
fire instants on the returned room — then emits `room-destroyed` with the
reason and a human message to every socket in
`[...admins, ...normalUsers]`, and deletes the room from the registry.
The member sets of the room object itself are not cleared by the source. -/
def destroyRoom (r : Room) (reason : String) (rooms : Registry) :
    Room × Registry × List Message :=
  ({ r with autoDestroyTimer := none, roomDestructionTimer := none },
   mapDelete rooms r.roomId,
   (r.admins ++ r.normalUsers).map (fun sid =>
     { target := Target.direct sid
       event := "room-destroyed"
       reason := some reason
       message := some (if reason = "duration_expired"
         then "Room duration has expired"
         else "Room destroyed - No admin present") }))

/-- The callback body of the auto-destroy (no-admin grace) timer
(src/server.js lines 91-93): it calls `destroyRoom('no_admin')` with no
re-check of the admin set. -/
def fireAutoDestroy (r : Room) (rooms : Registry) : Room × Registry × List Message :=
  r.destroyRoom "no_admin" rooms

/-- The callback body of the duration timer (lines 43-45): it calls
`destroyRoom('duration_expired')` with no re-check of the clock. -/
def fireDurationTimer (r : Room) (rooms : Registry) : Room × Registry × List Message :=
  r.destroyRoom "duration_expired" rooms

end Room

/-- The socket ids a `Message` actually reaches, given the room it is
scoped to and the requesting socket: `socket.to(roomId)` reaches the
room's members other than the sender, while `io.to(roomId)` reaches every
member, the sender included. -/
def Message.recipients (m : Message) (room : Room) (requester : Nat) : List Nat :=
  match m.target with
  | Target.requester => [requester]
  | Target.othersInRoom => (room.admins ++ room.normalUsers).filter (fun y => y ≠ requester)
  | Target.allInRoom => room.admins ++ room.normalUsers
  | Target.direct sid => [sid]

/-- The `create-room` handler (lines 174-203): the room id is
`roomName + "-" + Date.now()`, the room is stored with `rooms.set`
(silently replacing any entry already under that id), and the creator is
added as admin.  The source calls `rooms.set` before `room.addAdmin`, but
since the JS map holds a reference the stored room has the creator as
admin; the model composes in the order that yields the same final state. -/
def onCreateRoom (rooms : Registry) (roomName adminPassword joiningId : String)
    (duration : Nat) (apiKey : String) (sid : Nat) (now : Nat) :
    Registry × List Message :=
  let roomId := roomName ++ "-" ++ toString now
  let room := (mkRoom roomId roomName adminPassword joiningId duration apiKey now).addAdmin sid
  (mapSet rooms roomId room,
   [{ target := Target.requester, event := "room-created", role := some "admin" }])

/-- The room-resolution loop of the `join-room` handler (lines 215-223):
the first registry entry whose name and joining id both match and which
has not expired. -/
def findRoom (rooms : Registry) (roomName joiningId : String) (now : Nat) :
    Option (String × Room) :=
  rooms.find? (fun p =>
    p.2.roomName == roomName && p.2.joiningId == joiningId && !(p.2.hasExpired now))

/-- The `join-room` handler (lines 206-266).  Admin role is granted iff the
supplied password is truthy (non-empty) and equals the stored one.  On
success the joiner gets `room-joined` (via `socket.emit`) first, then
`user-joined` is emitted with `io.to(roomId)`, i.e. to every member of the
room, the joiner included. -/
def onJoinRoom (rooms : Registry) (roomName joiningId adminPassword : String)
    (sid : Nat) (now : Nat) : Registry × List Message :=
  match findRoom rooms roomName joiningId now with
  | none =>
    (rooms,
     [{ target := Target.requester, event := "join-error",
        message := some "Room not found or expired. Please check room name and joining ID." }])
  | some (rid, room) =>
    let isAdm := adminPassword ≠ "" ∧ adminPassword = room.adminPassword
    let room1 := if isAdm then room.addAdmin sid else room.addNormalUser sid
    let role := if isAdm then "admin" else "user"
    (mapSet rooms rid room1,
     [{ target := Target.requester, event := "room-joined", role := some role },
      { target := Target.allInRoom, event := "user-joined", role := some role }])

/-- The `play` handler (lines 269-282) for a socket whose session points at
registry key `rid`. -/
def onPlay (rooms : Registry) (rid : String) (sid : Nat) (time : ℚ) (now : Nat) :
    Registry × List Message :=
  match mapGet rooms rid with
  | none => (rooms, [])
  | some room =>
    if room.isAdmin sid then
      (mapSet rooms rid (room.updateState true time now),
       [{ target := Target.othersInRoom, event := "play" }])
    else
      (rooms,
       [{ target := Target.requester, event := "permission-denied",
          message := some "Only admins can control playback" }])

/-- The `pause` handler (lines 285-298). -/
def onPause (rooms : Registry) (rid : String) (sid : Nat) (time : ℚ) (now : Nat) :
    Registry × List Message :=
  match mapGet rooms rid with
  | none => (rooms, [])
  | some room =>
    if room.isAdmin sid then
      (mapSet rooms rid (room.updateState false time now),
       [{ target := Target.othersInRoom, event := "pause" }])
    else
      (rooms,
       [{ target := Target.requester, event := "permission-denied",
          message := some "Only admins can control playback" }])

/-- The `video-change` handler (lines 301-315): sets the current video and
then `updateState(false, 0)`. -/
def onVideoChange (rooms : Registry) (rid : String) (sid : Nat) (videoId : String)
    (now : Nat) : Registry × List Message :=
  match mapGet rooms rid with
  | none => (rooms, [])
  | some room =>
    if room.isAdmin sid then
      (mapSet rooms rid (({ room with currentVideo := videoId }).updateState false 0 now),
       [{ target := Target.othersInRoom, event := "video-change" }])
    else
      (rooms,
       [{ target := Target.requester, event := "permission-denied",
          message := some "Only admins can change videos" }])

/-- The `seek` handler (lines 318-331): `updateState(room.isPlaying,
data.time)`, preserving the playing flag. -/
def onSeek (rooms : Registry) (rid : String) (sid : Nat) (time : ℚ) (now : Nat) :
    Registry × List Message :=
  match mapGet rooms rid with
  | none => (rooms, [])
  | some room =>
    if room.isAdmin sid then
      (mapSet rooms rid (room.updateState room.isPlaying time now),
       [{ target := Target.othersInRoom, event := "seek" }])
    else
      (rooms,
       [{ target := Target.requester, event := "permission-denied",
          message := some "Only admins can seek video" }])

/-- The periodic cleanup sweep (lines 399-407): every room whose
`hasExpired()` holds at clock reading `now` is destroyed with reason
`duration_expired`. -/
def sweep (rooms : Registry) (now : Nat) : Registry × List Message :=
  rooms.foldl
    (fun acc entry =>
      if entry.2.hasExpired now then
        let step := entry.2.destroyRoom "duration_expired" acc.1
        (step.2.1, acc.2 ++ step.2.2)
      else acc)
    (rooms, [])

/-- Single-room transitions performed by the event handlers while a room is
alive: the operations of the `Room` class that the socket handlers invoke
on a registered room. -/
inductive RoomStep : Room → Room → Prop where
  | addAdmin (r : Room) (sid : Nat) : RoomStep r (r.addAdmin sid)
  | addNormalUser (r : Room) (sid : Nat) : RoomStep r (r.addNormalUser sid)
  | removeUser (r : Room) (sid : Nat) (now : Nat) : RoomStep r (r.removeUser sid now).1
  | updateState (r : Room) (p : Bool) (t : ℚ) (now : Nat) :
      RoomStep r (r.updateState p t now)
  | setVideo (r : Room) (v : String) : RoomStep r { r with currentVideo := v }
  | setApiKey (r : Room) (k : String) : RoomStep r { r with apiKey := k }

/-- Reachability of a room state from another by handler-performed
transitions. -/
def RoomReachable : Room → Room → Prop :=
  Relation.ReflTransGen RoomStep

/-- A sample registered room used to instantiate theorems with hypotheses:
socket 1 is its admin and socket 2 a viewer. -/
def sampleRoom : Room :=
  ((mkRoom "a-1" "a" "pw" "j" 5 "" 0).addAdmin 1).addNormalUser 2

/-- Registry holding `sampleRoom` under its id. -/
def sampleReg : Registry := [("a-1", sampleRoom)]

/-- A room whose stored admin password is the empty string. -/
def emptyPwRoom : Room := mkRoom "r-0" "movie" "" "jid" 5 "" 0

/-- A room created with duration 0 at time 1000, with one viewer. -/
def durZeroRoom : Room := (mkRoom "m-1000" "m" "pw" "j" 0 "" 1000).addNormalUser 3

/-- A hypothetical room state in which the no-admin grace timer is pending
although an admin (socket 9) is present. -/
def pendingTimerRoom : Room :=
  { (mkRoom "c-0" "c" "pw" "j" 5 "" 0).addNormalUser 4 with
    admins := [9], autoDestroyTimer := some 120000 }

/-! ### Helper lemmas about the registry and set operations -/

theorem mapGet_mapSet (m : Registry) (k : String) (v : Room) :
    mapGet (mapSet m k v) k = some v := by
  induction m with
  | nil => simp [mapSet, mapGet]
  | cons a t ih =>
    by_cases h : a.1 = k
    · simp [mapSet, mapGet, h]
    · simp [mapSet, mapGet, h, ih]

theorem mapGet_mapDelete (m : Registry) (k : String) :
    mapGet (mapDelete m k) k = none := by
  induction m with
  | nil => simp [mapDelete, mapGet]
  | cons a t ih =>
    by_cases h : a.1 = k
    · simp [mapDelete, h, ih]
    · simp [mapDelete, mapGet, h, ih]

theorem mapDelete_mapDelete (m : Registry) (k : String) :
    mapDelete (mapDelete m k) k = mapDelete m k := by
  induction m with
  | nil => simp [mapDelete]
  | cons a t ih =>
    by_cases h : a.1 = k
    · simp [mapDelete, h, ih]
    · simp [mapDelete, h, ih]

theorem mem_setAdd_self (s : List Nat) (x : Nat) : x ∈ setAdd s x := by
  unfold setAdd
  split
  · assumption
  · simp

theorem mem_of_mem_setDelete {s : List Nat} {x y : Nat}
    (h : y ∈ setDelete s x) : y ∈ s := by
  exact (List.mem_filter.mp h).1

theorem removeUser_admins (r : Room) (sid now : Nat) :
    (r.removeUser sid now).1.admins = setDelete r.admins sid := by
  unfold Room.removeUser
  dsimp only
  split <;> rfl

theorem removeUser_timer (r : Room) (sid now : Nat) :
    (r.removeUser sid now).1.autoDestroyTimer =
      (if sid ∈ r.admins ∧ setDelete r.admins sid = []
       then some (now + 2 * 60 * 1000) else r.autoDestroyTimer) := by
  unfold Room.removeUser
  dsimp only
  simp only [List.length_eq_zero]
  split
  · rfl
  · rfl

/-- Every handler-performed room transition preserves the invariant that a
pending no-admin grace timer implies an empty admin set: `addAdmin` is the
only step that populates the admin set, and it always cancels the timer. -/
theorem roomStep_grace_invariant {a b : Room} (h : RoomStep a b)
    (ha : a.autoDestroyTimer ≠ none → a.admins = []) :
    b.autoDestroyTimer ≠ none → b.admins = [] := by
  cases h with
  | addAdmin sid =>
    intro hb
    exact absurd rfl hb
  | addNormalUser sid =>
    intro hb
    exact ha hb
  | removeUser sid now =>
    intro hb
    rw [removeUser_admins]
    rw [removeUser_timer] at hb
    by_cases hcond : sid ∈ a.admins ∧ setDelete a.admins sid = []
    · exact hcond.2
    · rw [if_neg hcond] at hb
      simp [setDelete, ha hb]
  | updateState p t now =>
    intro hb
    exact ha hb
  | setVideo v =>
    intro hb
    exact ha hb
  | setApiKey k =>
    intro hb
    exact ha hb

/-! ### Claim theorems -/

/-- C1: `updateState(p, t)` performed at clock reading `w` resets
`lastUpdate` to `w`, and a `getState` read at any later clock reading `n`
with no intervening write reports position exactly `t` when `p` is false,
and `t` plus the elapsed `(n - w)/1000` seconds when `p` is true. -/
theorem C1_playback_reconciliation (r : Room) (p : Bool) (t : ℚ) (w n : Nat) :
    (r.updateState p t w).lastUpdate = w ∧
    ((r.updateState p t w).getState n).currentTime =
      (if p then t + ((n : ℚ) - (w : ℚ)) / 1000 else t) := by
  refine ⟨rfl, ?_⟩
  cases p <;> simp [Room.updateState, Room.getState]

/-- C2: for a registered room and a socket outside its admin set, each of
the `play`, `pause`, `video-change` and `seek` handlers leaves the whole
registry (hence the room's playback state) unchanged and emits exactly one
permission-denied message, addressed to the requester alone. -/
theorem C2_nonadmin_rejected (rooms : Registry) (rid : String) (room : Room)
    (sid : Nat) (time : ℚ) (v : String) (now : Nat)
    (hget : mapGet rooms rid = some room) (hadm : room.isAdmin sid = false) :
    onPlay rooms rid sid time now =
      (rooms, [{ target := Target.requester, event := "permission-denied",
                 message := some "Only admins can control playback" }]) ∧
    onPause rooms rid sid time now =
      (rooms, [{ target := Target.requester, event := "permission-denied",
                 message := some "Only admins can control playback" }]) ∧
    onVideoChange rooms rid sid v now =
      (rooms, [{ target := Target.requester, event := "permission-denied",
                 message := some "Only admins can change videos" }]) ∧
    onSeek rooms rid sid time now =
      (rooms, [{ target := Target.requester, event := "permission-denied",
                 message := some "Only admins can seek video" }]) := by
  refine ⟨?_, ?_, ?_, ?_⟩ <;> simp [onPlay, onPause, onVideoChange, onSeek, hget, hadm]

/-- C2 witness: socket 2 is a viewer of `sampleRoom`, and its `play`
request is rejected without touching the registry. -/
theorem C2_nonadmin_rejected_witness :
    mapGet sampleReg "a-1" = some sampleRoom ∧
    sampleRoom.isAdmin 2 = false ∧
    onPlay sampleReg "a-1" 2 10 5000 =
      (sampleReg, [{ target := Target.requester, event := "permission-denied",
                     message := some "Only admins can control playback" }]) :=
  ⟨by decide, by decide,
   (C2_nonadmin_rejected sampleReg "a-1" sampleRoom 2 10 "v" 5000
     (by decide) (by decide)).1⟩

/-- C3 counterexample: against a room whose stored admin password is the
empty string, a join that supplies exactly that stored password (the empty
string) is granted the viewer role, not admin — JS truthiness
(`adminPassword && ...`) rejects the matching empty password, contradicting
the claim's "including when the stored password is empty". -/
theorem C3_counterexample :
    emptyPwRoom.adminPassword = "" ∧
    (onJoinRoom [("r-0", emptyPwRoom)] "movie" "jid" "" 7 100).2 =
      [{ target := Target.requester, event := "room-joined", role := some "user" },
       { target := Target.allInRoom, event := "user-joined", role := some "user" }] ∧
    mapGet (onJoinRoom [("r-0", emptyPwRoom)] "movie" "jid" "" 7 100).1 "r-0" =
      some (emptyPwRoom.addNormalUser 7) ∧
    (emptyPwRoom.addNormalUser 7).admins = [] := by
  decide

/-- C3 (amended): a join resolves to the first registered room whose name
and joining id both match and which has not expired; with no such room the
requester alone gets the not-found-or-expired error and the registry is
unchanged; on success a fresh connection is granted admin iff the supplied
password is non-empty and equals the stored admin password, and viewer
otherwise. -/
theorem C3_join_resolution (rooms : Registry) (roomName joiningId pwd : String)
    (sid : Nat) (now : Nat) :
    (findRoom rooms roomName joiningId now = none →
      onJoinRoom rooms roomName joiningId pwd sid now =
        (rooms,
         [{ target := Target.requester, event := "join-error",
            message := some "Room not found or expired. Please check room name and joining ID." }])) ∧
    (∀ rid room, findRoom rooms roomName joiningId now = some (rid, room) →
      room.roomName = roomName ∧ room.joiningId = joiningId ∧
      room.hasExpired now = false) ∧
    (∀ rid room, findRoom rooms roomName joiningId now = some (rid, room) →
      sid ∉ room.admins → sid ∉ room.normalUsers →
      ∀ room1, mapGet (onJoinRoom rooms roomName joiningId pwd sid now).1 rid = some room1 →
        ((pwd ≠ "" ∧ pwd = room.adminPassword) →
          sid ∈ room1.admins ∧ sid ∉ room1.normalUsers) ∧
        (¬(pwd ≠ "" ∧ pwd = room.adminPassword) →
          sid ∈ room1.normalUsers ∧ sid ∉ room1.admins)) := by
  refine ⟨?_, ?_, ?_⟩
  · intro h
    simp [onJoinRoom, h]
  · intro rid room hfind
    have hp : (room.roomName == roomName && room.joiningId == joiningId
        && !(room.hasExpired now)) = true := by
      have := List.find?_some (p := fun p : String × Room =>
        p.2.roomName == roomName && p.2.joiningId == joiningId && !(p.2.hasExpired now))
        (by simpa [findRoom] using hfind)
      simpa using this
    simp only [Bool.and_eq_true, beq_iff_eq, Bool.not_eq_true'] at hp
    exact ⟨hp.1.1, hp.1.2, hp.2⟩
  · intro rid room hfind hna hnn room1 hget1
    simp only [onJoinRoom, hfind] at hget1
    by_cases hadm : pwd ≠ "" ∧ pwd = room.adminPassword
    · simp only [if_pos hadm, mapGet_mapSet, Option.some.injEq] at hget1
      subst hget1
      refine ⟨fun _ => ⟨?_, ?_⟩, fun hc => absurd hadm hc⟩
      · exact mem_setAdd_self _ _
      · simpa [Room.addAdmin, Room.cancelAutoDestroy] using hnn
    · simp only [if_neg hadm, mapGet_mapSet, Option.some.injEq] at hget1
      subst hget1
      refine ⟨fun hc => absurd hc hadm, fun _ => ⟨?_, ?_⟩⟩
      · exact mem_setAdd_self _ _
      · simpa [Room.addNormalUser] using hna

/-- C3 witness: socket 9 joins `sampleRoom` supplying the stored password
"pw" and is granted admin. -/
theorem C3_join_resolution_witness :
    findRoom sampleReg "a" "j" 50 = some ("a-1", sampleRoom) ∧
    9 ∉ sampleRoom.admins ∧ 9 ∉ sampleRoom.normalUsers ∧
    mapGet (onJoinRoom sampleReg "a" "j" "pw" 9 50).1 "a-1" =
      some (sampleRoom.addAdmin 9) ∧
    ((("pw" : String) ≠ "" ∧ ("pw" : String) = sampleRoom.adminPassword) →
      9 ∈ (sampleRoom.addAdmin 9).admins ∧ 9 ∉ (sampleRoom.addAdmin 9).normalUsers) :=
  ⟨by decide, by decide, by decide, by decide,
   ((C3_join_resolution sampleReg "a" "j" "pw" 9 50).2.2 "a-1" sampleRoom (by decide)
     (by decide) (by decide) (sampleRoom.addAdmin 9) (by decide)).1⟩

/-- C4: evaluation at the failing input.  A room created with duration 0 at
time 1000 has `expiresAt = createdAt` and no one-shot destruction timer,
but `hasExpired` already holds one millisecond later, so the periodic
sweep destroys it with reason `duration_expired` — contradicting the
intent (visible in the constructor's `duration > 0` guard) that duration 0
means no duration expiry. -/
theorem C4_duration_zero_swept :
    durZeroRoom.duration = 0 ∧
    durZeroRoom.expiresAt = durZeroRoom.createdAt ∧
    durZeroRoom.roomDestructionTimer = none ∧
    durZeroRoom.hasExpired 1001 = true ∧
    sweep [("m-1000", durZeroRoom)] 1001 =
      ([], [{ target := Target.direct 3, event := "room-destroyed",
              reason := some "duration_expired",
              message := some "Room duration has expired" }]) := by
  decide

/-- C5: removing a member never adds anyone to the admin set and never
moves a viewer into it; if the departing socket was an admin and the admin
set thereby becomes empty while viewers remain, the 2-minute (120000 ms)
grace timer is started; `addAdmin` (any connection authenticating as
admin) cancels any pending grace timer; and when the grace timer fires it
destroys the room with reason `no_admin`, notifying members and removing
the room from the registry. -/
theorem C5_admin_departure (r : Room) (sid sid2 : Nat) (now : Nat) (reg : Registry) :
    (∀ x ∈ (r.removeUser sid now).1.admins, x ∈ r.admins) ∧
    (r.removeUser sid now).1.normalUsers = setDelete r.normalUsers sid ∧
    (sid ∈ r.admins → setDelete r.admins sid = [] →
      setDelete r.normalUsers sid ≠ [] →
      (r.removeUser sid now).1.autoDestroyTimer = some (now + 2 * 60 * 1000)) ∧
    (r.addAdmin sid2).autoDestroyTimer = none ∧
    (∀ m ∈ (Room.fireAutoDestroy r reg).2.2,
      m.event = "room-destroyed" ∧ m.reason = some "no_admin") ∧
    mapGet (Room.fireAutoDestroy r reg).2.1 r.roomId = none := by
  have hadmins : (r.removeUser sid now).1.admins = setDelete r.admins sid := by
    unfold Room.removeUser
    dsimp only
    split <;> rfl
  have husers : (r.removeUser sid now).1.normalUsers = setDelete r.normalUsers sid := by
    unfold Room.removeUser
    dsimp only
    split <;> rfl
  refine ⟨?_, husers, ?_, rfl, ?_, ?_⟩
  · intro x hx
    rw [hadmins] at hx
    exact mem_of_mem_setDelete hx
  · intro h1 h2 _
    unfold Room.removeUser
    dsimp only
    rw [if_pos ⟨h1, by simp [h2]⟩]
    rfl
  · intro m hm
    simp only [Room.fireAutoDestroy, Room.destroyRoom, List.mem_map] at hm
    obtain ⟨a, _, rfl⟩ := hm
    exact ⟨rfl, rfl⟩
  · exact mapGet_mapDelete reg r.roomId

/-- C5 witness: removing the single admin (socket 1) of `sampleRoom` while
viewer 2 remains starts the grace timer 120000 ms out. -/
theorem C5_admin_departure_witness :
    1 ∈ sampleRoom.admins ∧
    setDelete sampleRoom.admins 1 = [] ∧
    setDelete sampleRoom.normalUsers 1 ≠ [] ∧
    (sampleRoom.removeUser 1 7).1.autoDestroyTimer = some (7 + 2 * 60 * 1000) :=
  ⟨by decide, by decide, by decide,
   (C5_admin_departure sampleRoom 1 1 7 sampleReg).2.2.1 (by decide) (by decide) (by decide)⟩

/-- C6 counterexample: `destroyRoom` does not clear the room object's
member sets, so invoking it a second time on the same (already destroyed)
room re-emits `room-destroyed` to sockets 1 and 2 — the second invocation
does notify members a second time, contradicting the claim. -/
theorem C6_counterexample :
    (sampleRoom.destroyRoom "no_admin" sampleReg).2.1 = [] ∧
    ((sampleRoom.destroyRoom "no_admin" sampleReg).1.destroyRoom "no_admin"
        (sampleRoom.destroyRoom "no_admin" sampleReg).2.1).2.2 =
      [{ target := Target.direct 1, event := "room-destroyed",
         reason := some "no_admin",
         message := some "Room destroyed - No admin present" },
       { target := Target.direct 2, event := "room-destroyed",
         reason := some "no_admin",
         message := some "Room destroyed - No admin present" }] := by
  decide

/-- C6 (amended): `destroyRoom(reason)` cancels any pending grace and
duration timers, notifies every currently connected member exactly once
per invocation with a `{reason, message}` payload, and removes the room
from the registry; invoking `destroyRoom` a second time on the same room
leaves the registry unchanged, but — the member sets not being cleared —
it emits exactly the same notifications again, so destruction is
idempotent on the registry and the timers only, not on notifications. -/
theorem C6_destroy_registry_idempotent (r : Room) (reason : String) (reg : Registry)
    (h1 : r.admins.Nodup) (h2 : r.normalUsers.Nodup)
    (h3 : ∀ x ∈ r.admins, x ∉ r.normalUsers) :
    (r.destroyRoom reason reg).1.autoDestroyTimer = none ∧
    (r.destroyRoom reason reg).1.roomDestructionTimer = none ∧
    (∀ sid ∈ r.admins ++ r.normalUsers,
      (((r.destroyRoom reason reg).2.2.map Message.target).count (Target.direct sid)) = 1) ∧
    mapGet (r.destroyRoom reason reg).2.1 r.roomId = none ∧
    ((r.destroyRoom reason reg).1.destroyRoom reason
        (r.destroyRoom reason reg).2.1).2.1 =
      (r.destroyRoom reason reg).2.1 ∧
    ((r.destroyRoom reason reg).1.destroyRoom reason
        (r.destroyRoom reason reg).2.1).2.2 =
      (r.destroyRoom reason reg).2.2 := by
  have hinj : Function.Injective Target.direct := by
    intro a b h
    simpa using h
  refine ⟨rfl, rfl, ?_, mapGet_mapDelete reg r.roomId, ?_, rfl⟩
  · intro sid hsid
    have hnodup : (r.admins ++ r.normalUsers).Nodup :=
      h1.append h2 (List.disjoint_left.mpr h3)
    have hmap : (r.destroyRoom reason reg).2.2.map Message.target =
        (r.admins ++ r.normalUsers).map Target.direct := by
      simp [Room.destroyRoom, List.map_map]
      rfl
    rw [hmap, List.count_map_of_injective _ _ hinj]
    exact List.count_eq_one_of_mem hnodup hsid
  · simp only [Room.destroyRoom]
    exact mapDelete_mapDelete reg r.roomId

/-- C6 witness: destroying `sampleRoom` clears both timers, notifies
admin 1 exactly once, and a repeat invocation leaves the (already
emptied) registry unchanged. -/
theorem C6_destroy_registry_idempotent_witness :
    sampleRoom.admins.Nodup ∧ sampleRoom.normalUsers.Nodup ∧
    (∀ x ∈ sampleRoom.admins, x ∉ sampleRoom.normalUsers) ∧
    (sampleRoom.destroyRoom "no_admin" sampleReg).1.autoDestroyTimer = none ∧
    (sampleRoom.destroyRoom "no_admin" sampleReg).1.roomDestructionTimer = none ∧
    (((sampleRoom.destroyRoom "no_admin" sampleReg).2.2.map Message.target).count
      (Target.direct 1)) = 1 ∧
    ((sampleRoom.destroyRoom "no_admin" sampleReg).1.destroyRoom "no_admin"
        (sampleRoom.destroyRoom "no_admin" sampleReg).2.1).2.1 =
      (sampleRoom.destroyRoom "no_admin" sampleReg).2.1 :=
  ⟨by decide, by decide, by decide,
   (C6_destroy_registry_idempotent sampleRoom "no_admin" sampleReg (by decide)
     (by decide) (by decide)).1,
   (C6_destroy_registry_idempotent sampleRoom "no_admin" sampleReg (by decide)
     (by decide) (by decide)).2.1,
   (C6_destroy_registry_idempotent sampleRoom "no_admin" sampleReg (by decide)
     (by decide) (by decide)).2.2.1 1 (by decide),
   (C6_destroy_registry_idempotent sampleRoom "no_admin" sampleReg (by decide)
     (by decide) (by decide)).2.2.2.2.1⟩

/-- C7 counterexample: the grace-timer callback performs no fire-time
re-validation — applied to a room state whose admin set is non-empty while
the timer is pending, it still destroys the room (empties the registry and
notifies members), so "the room is destroyed only if the condition still
holds at that moment" is false of the callback itself. -/
theorem C7_counterexample :
    pendingTimerRoom.autoDestroyTimer = some 120000 ∧
    pendingTimerRoom.admins ≠ [] ∧
    (Room.fireAutoDestroy pendingTimerRoom [("c-0", pendingTimerRoom)]).2.1 = [] ∧
    (Room.fireAutoDestroy pendingTimerRoom [("c-0", pendingTimerRoom)]).2.2 ≠ [] := by
  decide

/-- C7 (amended): the timer callbacks destroy unconditionally, with no
re-validation at fire time; the destroy condition nevertheless holds
whenever the grace timer can actually fire, because it is maintained by
eager cancellation — in every room state reachable from a fresh room by
the handler-performed transitions, a pending grace timer implies the admin
set is empty. -/
theorem C7_no_admin_condition_at_fire (rid name pw jid : String) (dur : Nat)
    (key : String) (now0 : Nat) (r : Room) (d : Nat)
    (hreach : RoomReachable (mkRoom rid name pw jid dur key now0) r)
    (hpending : r.autoDestroyTimer = some d) :
    r.admins = [] := by
  have inv : ∀ s, RoomReachable (mkRoom rid name pw jid dur key now0) s →
      (s.autoDestroyTimer ≠ none → s.admins = []) := by
    intro s hs
    induction hs with
    | refl =>
      intro h
      exact absurd rfl h
    | tail hab hbc ih =>
      exact roomStep_grace_invariant hbc ih
  exact inv r hreach (by simp [hpending])

/-- C7 witness: after the lone admin (socket 1) leaves a fresh room at time
100, the grace timer is pending at 120100 and the admin set is empty. -/
theorem C7_no_admin_condition_at_fire_witness :
    RoomReachable (mkRoom "w-0" "w" "pw" "j" 0 "" 0)
      (((mkRoom "w-0" "w" "pw" "j" 0 "" 0).addAdmin 1).removeUser 1 100).1 ∧
    (((mkRoom "w-0" "w" "pw" "j" 0 "" 0).addAdmin 1).removeUser 1 100).1.autoDestroyTimer
      = some 120100 ∧
    (((mkRoom "w-0" "w" "pw" "j" 0 "" 0).addAdmin 1).removeUser 1 100).1.admins = [] := by
  have hreach : RoomReachable (mkRoom "w-0" "w" "pw" "j" 0 "" 0)
      (((mkRoom "w-0" "w" "pw" "j" 0 "" 0).addAdmin 1).removeUser 1 100).1 :=
    Relation.ReflTransGen.tail
      (Relation.ReflTransGen.single (RoomStep.addAdmin _ 1))
      (RoomStep.removeUser _ 1 100)
  exact ⟨hreach, by decide,
    C7_no_admin_condition_at_fire "w-0" "w" "pw" "j" 0 "" 0 _ 120100 hreach (by decide)⟩

/-- C8 counterexample: when socket 5 joins `sampleRoom`, the `user-joined`
notification is emitted with `io.to(roomId)` and so reaches every member
of the room — including the joiner itself (5 is among its recipients),
contradicting "delivered to the room's members other than the joiner". -/
theorem C8_counterexample :
    (onJoinRoom sampleReg "a" "j" "" 5 100).2 =
      [{ target := Target.requester, event := "room-joined", role := some "user" },
       { target := Target.allInRoom, event := "user-joined", role := some "user" }] ∧
    mapGet (onJoinRoom sampleReg "a" "j" "" 5 100).1 "a-1" =
      some (sampleRoom.addNormalUser 5) ∧
    5 ∈ Message.recipients
      { target := Target.allInRoom, event := "user-joined", role := some "user" }
      (sampleRoom.addNormalUser 5) 5 := by
  decide

/-- C8 (amended): on every successful join the joiner's own `room-joined`
snapshot is emitted strictly before the `user-joined` notification, and
`user-joined` is broadcast to all members of the room — the joiner
included (it is `io.to(roomId)`, not `socket.to(roomId)`). -/
theorem C8_join_ordering (rooms : Registry) (roomName joiningId pwd : String)
    (sid now : Nat) (rid : String) (room : Room)
    (hfind : findRoom rooms roomName joiningId now = some (rid, room)) :
    ((onJoinRoom rooms roomName joiningId pwd sid now).2.map
        (fun m => (m.event, m.target))) =
      [("room-joined", Target.requester), ("user-joined", Target.allInRoom)] ∧
    (∀ room1, mapGet (onJoinRoom rooms roomName joiningId pwd sid now).1 rid = some room1 →
      ∀ m ∈ (onJoinRoom rooms roomName joiningId pwd sid now).2,
        m.target = Target.allInRoom →
        Message.recipients m room1 sid = room1.admins ++ room1.normalUsers ∧
        sid ∈ Message.recipients m room1 sid) := by
  constructor
  · simp only [onJoinRoom, hfind]
    by_cases hadm : pwd ≠ "" ∧ pwd = room.adminPassword
    · simp [hadm]
    · simp [hadm]
  · intro room1 hget1 m hm htarget
    simp only [onJoinRoom, hfind, mapGet_mapSet, Option.some.injEq] at hget1
    have hrec : Message.recipients m room1 sid = room1.admins ++ room1.normalUsers := by
      simp [Message.recipients, htarget]
    refine ⟨hrec, ?_⟩
    rw [hrec]
    subst hget1
    by_cases hadm : pwd ≠ "" ∧ pwd = room.adminPassword
    · rw [if_pos hadm]
      exact List.mem_append.mpr (Or.inl (by
        simpa [Room.addAdmin, Room.cancelAutoDestroy] using mem_setAdd_self room.admins sid))
    · rw [if_neg hadm]
      exact List.mem_append.mpr (Or.inr (by
        simpa [Room.addNormalUser] using mem_setAdd_self room.normalUsers sid))

/-- C8 witness: socket 5 joins `sampleRoom` as a viewer; the emission list
is `room-joined` to the requester followed by `user-joined` to the whole
room. -/
theorem C8_join_ordering_witness :
    findRoom sampleReg "a" "j" 100 = some ("a-1", sampleRoom) ∧
    ((onJoinRoom sampleReg "a" "j" "" 5 100).2.map (fun m => (m.event, m.target))) =
      [("room-joined", Target.requester), ("user-joined", Target.allInRoom)] :=
  ⟨by decide, (C8_join_ordering sampleReg "a" "j" "" 5 100 "a-1" sampleRoom (by decide)).1⟩

/-- C9: evaluation at the failing input.  Two `create-room` requests with
the same room name "A" arriving in the same millisecond (`Date.now() = 5`)
generate the identical room id "A-5"; `rooms.set` then silently replaces
the first room, leaving a single registry entry whose admin is the second
creator — despite the source's own "Generate unique room ID" comment and
the claim that a new id is always distinct from all registered ones. -/
theorem C9_room_id_collision :
    (onCreateRoom [] "A" "pw" "j" 10 "" 1 5).1 =
      [("A-5", (mkRoom "A-5" "A" "pw" "j" 10 "" 5).addAdmin 1)] ∧
    (onCreateRoom (onCreateRoom [] "A" "pw" "j" 10 "" 1 5).1 "A" "pw2" "j2" 10 "" 2 5).1 =
      [("A-5", (mkRoom "A-5" "A" "pw2" "j2" 10 "" 5).addAdmin 2)] ∧
    (onCreateRoom (onCreateRoom [] "A" "pw" "j" 10 "" 1 5).1 "A" "pw2" "j2" 10 "" 2 5).1.length
      = 1 := by
  decide

/-- C10: an admin-issued `video-change` to video `v` leaves the room with
`currentVideo = v`, paused (`isPlaying = false`) at position 0, with
`lastUpdate` reset to the current time — while an admin `seek` preserves
the current playing flag (and sets the position to the requested time). -/
theorem C10_video_change_resets (rooms : Registry) (rid : String) (room : Room)
    (sid : Nat) (v : String) (t : ℚ) (now : Nat)
    (hget : mapGet rooms rid = some room) (hadm : room.isAdmin sid = true) :
    (∀ room1, mapGet (onVideoChange rooms rid sid v now).1 rid = some room1 →
      room1.currentVideo = v ∧ room1.isPlaying = false ∧ room1.currentTime = 0 ∧
      room1.lastUpdate = now) ∧
    (∀ room2, mapGet (onSeek rooms rid sid t now).1 rid = some room2 →
      room2.isPlaying = room.isPlaying ∧ room2.currentTime = t) := by
  constructor
  · intro room1 h
    simp only [onVideoChange, hget, hadm, if_true, mapGet_mapSet, Option.some.injEq] at h
    subst h
    exact ⟨rfl, rfl, rfl, rfl⟩
  · intro room2 h
    simp only [onSeek, hget, hadm, if_true, mapGet_mapSet, Option.some.injEq] at h
    subst h
    exact ⟨rfl, rfl⟩

/-- C10 witness: admin socket 1 changes `sampleRoom`'s video to "vid2" at
time 999; the stored room is paused at position 0 on "vid2". -/
theorem C10_video_change_resets_witness :
    mapGet sampleReg "a-1" = some sampleRoom ∧
    sampleRoom.isAdmin 1 = true ∧
    (({ sampleRoom with currentVideo := "vid2" }).updateState false 0 999).currentVideo
      = "vid2" ∧
    (({ sampleRoom with currentVideo := "vid2" }).updateState false 0 999).isPlaying
      = false ∧
    (({ sampleRoom with currentVideo := "vid2" }).updateState false 0 999).currentTime
      = 0 ∧
    (({ sampleRoom with currentVideo := "vid2" }).updateState false 0 999).lastUpdate
      = 999 :=
  ⟨by decide, by decide,
   ((C10_video_change_resets sampleReg "a-1" sampleRoom 1 "vid2" 0 999 (by decide)
      (by decide)).1 _ (by decide)).1,
   ((C10_video_change_resets sampleReg "a-1" sampleRoom 1 "vid2" 0 999 (by decide)
      (by decide)).1 _ (by decide)).2.1,
   ((C10_video_change_resets sampleReg "a-1" sampleRoom 1 "vid2" 0 999 (by decide)
      (by decide)).1 _ (by decide)).2.2.1,
   ((C10_video_change_resets sampleReg "a-1" sampleRoom 1 "vid2" 0 999 (by decide)
      (by decide)).1 _ (by decide)).2.2.2⟩

end Panthparty
